import Mathlib

/-!
Verification of the Multipass dynamic Ansible inventory script
(ansible/inventories/multipass/inventory.py).

The script is embedded shallowly:
* a parsed VM record is a structure whose fields are `Option`-valued,
  mirroring Python dictionary lookups with `.get` that may find no key;
* the external fetch (`multipass list --format json`) is an outcome type:
  either one of the three caught exception classes or a successfully
  decoded mapping; `get_multipass_vm_info` maps every failure outcome to
  the mapping with an empty `list` entry, exactly as the `except` clause
  of the source does;
* filesystem paths are lists of components; `os.path.dirname` drops the
  last component;
* the command line entry point returns the value that would be printed:
  either the full inventory document or the sub-mapping of one host
  (where `none` stands for the empty mapping). The Python conditions
  `elif args.host:` and `if vm_ip:` test truthiness, hence each is false
  both for a missing value and for an empty string; the embedding keeps
  both distinctions.
-/

namespace MultipassInventory

/-- A VM record as parsed from the JSON output of the external command.
Each field is optional because the source reads the keys with `vm.get`,
which yields a default when the key is missing. -/
structure VM where
  name : Option String
  state : Option String
  ipv4 : Option (List String)
deriving DecidableEq, Repr

/-- The decoded top level mapping returned by the external command; the
source reads it with `multipass_data.get("list", [])`, so the `list` key
may be absent. -/
structure MultipassData where
  list : Option (List VM)
deriving DecidableEq, Repr

/-- The connection variables attached to the discovered host. -/
structure HostVars where
  ansible_host : String
  ansible_user : String
  ansible_ssh_private_key_file : String
  ansible_ssh_common_args : String
deriving DecidableEq, Repr

/-- The inventory document built by `get_inventory`: the fixed top level
keys `all` (children), `development` (hosts) and `_meta` (hostvars, an
ordered key-value mapping). -/
structure Inventory where
  all_children : List String
  development_hosts : List String
  meta_hostvars : List (String × HostVars)
deriving DecidableEq, Repr

/-- Outcome of running `multipass list --format json` and decoding its
output: the three exception classes caught by the source, or success. -/
inductive FetchOutcome where
  | fileNotFoundError
  | calledProcessError
  | jsonDecodeError
  | ok (data : MultipassData)
deriving DecidableEq, Repr

/-- Embedding of `get_multipass_vm_info`: on success the decoded data is
returned; any caught failure collapses to the mapping with an empty
`list` value. -/
def get_multipass_vm_info : FetchOutcome → MultipassData
  | .ok d => d
  | .fileNotFoundError => { list := some [] }
  | .calledProcessError => { list := some [] }
  | .jsonDecodeError => { list := some [] }

/-- Embedding of `os.path.dirname` on a path given as components. -/
def dirname (p : List String) : List String := p.dropLast

/-- Embedding of `get_project_root`: three `dirname` steps above the
directory holding the script. -/
def get_project_root (script_dir : List String) : List String :=
  dirname (dirname (dirname script_dir))

/-- Embedding of `os.path.join(root, rel)` for a relative second
argument, rendering the root components with slashes. -/
def path_join (root : List String) (rel : String) : String :=
  String.intercalate "/" root ++ "/" ++ rel

/-- Embedding of `s.startswith(pre)` as a test on character sequences. -/
def str_startswith (s pre : String) : Bool :=
  pre.data.isPrefixOf s.data

/-- The test performed on each candidate address in `get_inventory`:
`ip.startswith(("127.", "172.", "10.42."))`. -/
def is_excluded_ip (ip : String) : Bool :=
  str_startswith ip "127." || str_startswith ip "172." || str_startswith ip "10.42."

/-- The loop over `target_vm.get("ipv4", [])`: the first address that is
not excluded, if any. -/
def select_ip (ips : List String) : Option String :=
  ips.find? (fun ip => ! is_excluded_ip ip)

/-- The loop over `multipass_data.get("list", [])` looking for the first
record named `jterrazz-infra`. -/
def find_target_vm (multipass_data : MultipassData) : Option VM :=
  (multipass_data.list.getD []).find? (fun vm => vm.name == some "jterrazz-infra")

/-- The base inventory structure built before the success branch of
`get_inventory` possibly fills it. -/
def empty_inventory : Inventory :=
  { all_children := ["development"]
    development_hosts := []
    meta_hostvars := [] }

/-- The constant SSH options of the source. -/
def ssh_common_args : String :=
  "-o StrictHostKeyChecking=no -o UserKnownHostsFile=/dev/null"

/-- Embedding of `get_inventory`. The directory holding the script is a
parameter of the embedding because the source reads it from `__file__`.
The success branch is guarded by the Python truthiness test `if vm_ip:`,
which is false both when the loop selected no address (`vm_ip` still
`None`) and when the selected address is the empty string; the embedding
keeps both halves of that test. -/
def get_inventory (script_dir : List String) (multipass_data : MultipassData) :
    Inventory :=
  let project_root := get_project_root script_dir
  let ssh_key_path := path_join project_root "local-data/ssh/id_rsa"
  match find_target_vm multipass_data with
  | none => empty_inventory
  | some target_vm =>
    if target_vm.state == some "Running" then
      match select_ip (target_vm.ipv4.getD []) with
      | none => empty_inventory
      | some vm_ip =>
        if vm_ip.isEmpty then
          empty_inventory
        else
          { all_children := ["development"]
            development_hosts := ["jterrazz-infra"]
            meta_hostvars := [("jterrazz-infra",
              { ansible_host := vm_ip
                ansible_user := "ubuntu"
                ansible_ssh_private_key_file := ssh_key_path
                ansible_ssh_common_args := ssh_common_args })] }
    else empty_inventory

/-- The parsed command line: `--list` is a boolean flag, `--host` takes
one value and defaults to `None`. -/
structure Args where
  list : Bool
  host : Option String
deriving DecidableEq, Repr

/-- The value printed by `main`: the full document, or the sub-mapping of
one host where `none` renders as the empty mapping. -/
inductive MainOut where
  | doc (inv : Inventory)
  | host (hv : Option HostVars)
deriving DecidableEq, Repr

/-- Python truthiness of `args.host`: false when the flag is absent and
also when its value is the empty string. -/
def host_truthy : Option String → Bool
  | none => false
  | some s => ! s.isEmpty

/-- Embedding of `main` after argument parsing: the branch on `args.list`
and the truthiness branch on `args.host`, returning the printed value. -/
def main (args : Args) (fetch : FetchOutcome) (script_dir : List String) :
    MainOut :=
  let inventory := get_inventory script_dir (get_multipass_vm_info fetch)
  if args.list then
    .doc inventory
  else if host_truthy args.host then
    .host (inventory.meta_hostvars.lookup (args.host.getD ""))
  else
    .doc inventory

/-- A running record named `jterrazz-infra` with the given addresses. -/
def running_target_vm (ips : List String) : VM :=
  { name := some "jterrazz-infra", state := some "Running", ipv4 := some ips }

/-- The address recorded as `ansible_host` for the discovered host, when
there is one. -/
def selected_host_ip (inv : Inventory) : Option String :=
  (inv.meta_hostvars.lookup "jterrazz-infra").map HostVars.ansible_host

/-- A first-match property of `List.find?`: on a list split as
`pre ++ x :: suf` where the test fails on all of `pre` and succeeds on
`x`, the search returns `x`. -/
theorem find_eq_first_success {α : Type} (p : α → Bool) (pre : List α) (x : α)
    (suf : List α) (hpre : ∀ y ∈ pre, p y = false) (hx : p x = true) :
    (pre ++ x :: suf).find? p = some x := by
  induction pre with
  | nil => simpa using List.find?_cons_of_pos suf hx
  | cons a as ih =>
    have ha : p a = false := hpre a (List.mem_cons_self a as)
    rw [List.cons_append, List.find?_cons_of_neg _ (by simp [ha])]
    exact ih fun y hy => hpre y (List.mem_cons_of_mem a hy)

/-- On a list holding exactly one running target record, `get_inventory`
reduces to the branch on the selected address, including the truthiness
gate on the selected string. -/
theorem get_inventory_single_running (script_dir ips : List String) :
    get_inventory script_dir { list := some [running_target_vm ips] } =
      match select_ip ips with
      | none => empty_inventory
      | some vm_ip =>
        if vm_ip.isEmpty then
          empty_inventory
        else
          { all_children := ["development"]
            development_hosts := ["jterrazz-infra"]
            meta_hostvars := [("jterrazz-infra",
              { ansible_host := vm_ip
                ansible_user := "ubuntu"
                ansible_ssh_private_key_file :=
                  path_join (get_project_root script_dir) "local-data/ssh/id_rsa"
                ansible_ssh_common_args := ssh_common_args })] } := rfl

/-- A non-empty string has a false `isEmpty` test. -/
theorem isEmpty_false_of_ne_empty {s : String} (h : s ≠ "") :
    s.isEmpty = false := by
  rcases hs : s.isEmpty with _ | _
  · rfl
  · exact absurd ((String.isEmpty_iff s).mp hs) h

/-- Claim C1: every failure of the external fetch (process launch failure,
non-zero exit, or JSON decode failure) makes `get_multipass_vm_info`
return the mapping whose `list` entry is the empty sequence, and this
failure propagates into the empty inventory document. -/
theorem c1_fetch_fail_soft :
    get_multipass_vm_info .fileNotFoundError = { list := some [] } ∧
    get_multipass_vm_info .calledProcessError = { list := some [] } ∧
    get_multipass_vm_info .jsonDecodeError = { list := some [] } ∧
    ∀ script_dir : List String,
      get_inventory script_dir (get_multipass_vm_info .fileNotFoundError) =
        empty_inventory ∧
      get_inventory script_dir (get_multipass_vm_info .calledProcessError) =
        empty_inventory ∧
      get_inventory script_dir (get_multipass_vm_info .jsonDecodeError) =
        empty_inventory :=
  ⟨rfl, rfl, rfl, fun _ => ⟨rfl, rfl, rfl⟩⟩

/-- Claim C5: for every fetch result, the value printed by
`--host jterrazz-infra` is exactly the sub-mapping that `--list` embeds
under the `jterrazz-infra` key of `_meta.hostvars` of the same document. -/
theorem c5_host_agrees_with_list :
    ∀ (fetch : FetchOutcome) (script_dir : List String),
      ∃ inv : Inventory,
        main { list := true, host := none } fetch script_dir = .doc inv ∧
        main { list := false, host := some "jterrazz-infra" } fetch script_dir =
          .host (inv.meta_hostvars.lookup "jterrazz-infra") :=
  fun fetch script_dir =>
    ⟨get_inventory script_dir (get_multipass_vm_info fetch), rfl, rfl⟩

/-- Claim C6: for every fetch result, an invocation with no flags prints
exactly what an invocation with `--list` prints: the full document. -/
theorem c6_no_flags_is_list :
    ∀ (fetch : FetchOutcome) (script_dir : List String),
      main { list := false, host := none } fetch script_dir =
        main { list := true, host := none } fetch script_dir :=
  fun _ _ => rfl

/-- Claim C9: when `--list` and `--host` are both supplied, the full
document is printed and the host sub-mapping is not. -/
theorem c9_list_takes_precedence :
    ∀ (fetch : FetchOutcome) (script_dir : List String) (name : String),
      main { list := true, host := some name } fetch script_dir =
        .doc (get_inventory script_dir (get_multipass_vm_info fetch)) ∧
      ∀ hv : Option HostVars,
        main { list := true, host := some name } fetch script_dir ≠ .host hv :=
  fun _ _ _ => ⟨rfl, fun _ h => MainOut.noConfusion h⟩

/-- Claim C10: `get_inventory` is total over missing keys: a record with
no `name` key never matches the target, a target record with no `state`
key yields the empty inventory, and a running target record with no
`ipv4` key is treated as having no addresses, also yielding the empty
inventory. (The embedding is a total function, so no case can raise.) -/
theorem c10_missing_keys_are_safe :
    (∀ (script_dir : List String) (st : Option String)
        (ips : Option (List String)) (vms : List VM),
      get_inventory script_dir
          { list := some ({ name := none, state := st, ipv4 := ips } :: vms) } =
        get_inventory script_dir { list := some vms }) ∧
    (∀ (script_dir : List String) (ips : Option (List String)),
      get_inventory script_dir
          { list := some [{ name := some "jterrazz-infra", state := none,
                            ipv4 := ips }] } =
        empty_inventory) ∧
    (∀ script_dir : List String,
      get_inventory script_dir
          { list := some [{ name := some "jterrazz-infra",
                            state := some "Running", ipv4 := none }] } =
        empty_inventory) :=
  ⟨fun _ _ _ _ => rfl, fun _ _ => rfl, fun _ => rfl⟩

/-- Claim C2 as stated is false at one representable input: the empty
string passes the prefix filter, so for a running target record with
`ipv4 = ["127.0.0.1", ""]` the claim asserts the selected address is the
empty string, but the truthiness gate `if vm_ip:` of the source leaves
the inventory empty instead. -/
theorem c2_counterexample :
    (∀ y ∈ ["127.0.0.1"], is_excluded_ip y = true) ∧
    is_excluded_ip "" = false ∧
    selected_host_ip (get_inventory []
        { list := some [running_target_vm (["127.0.0.1"] ++ "" :: [])] }) ≠
      some "" ∧
    get_inventory [] { list := some [running_target_vm ["127.0.0.1", ""]] } =
      empty_inventory := by
  exact ⟨by decide, by decide, by decide, by decide⟩

/-- Claim C2 amended: for a running target record, the address recorded
in the document is the first element of its `ipv4` sequence, in order,
that does not start with any of the prefixes of the exclusion set,
provided that element is non-empty (the truthiness gate of the source);
in particular the sequence
`["127.0.0.1", "172.17.0.1", "10.42.0.5", "192.168.64.10"]` yields
exactly `"192.168.64.10"`, and the sequence `["10.42.0.5"]` yields the
empty inventory. -/
theorem c2_first_qualifying_ip :
    (∀ (script_dir pre suf : List String) (x : String),
      (∀ y ∈ pre, is_excluded_ip y = true) → is_excluded_ip x = false →
      x ≠ "" →
      selected_host_ip (get_inventory script_dir
          { list := some [running_target_vm (pre ++ x :: suf)] }) = some x) ∧
    selected_host_ip (get_inventory []
        { list := some [running_target_vm
            ["127.0.0.1", "172.17.0.1", "10.42.0.5", "192.168.64.10"]] }) =
      some "192.168.64.10" ∧
    get_inventory [] { list := some [running_target_vm ["10.42.0.5"]] } =
      empty_inventory := by
  refine ⟨?_, by decide, by decide⟩
  intro script_dir pre suf x hpre hx hne
  have hsel : select_ip (pre ++ x :: suf) = some x := by
    apply find_eq_first_success
    · intro y hy
      simp [hpre y hy]
    · simp [hx]
  rw [get_inventory_single_running, hsel]
  simp [selected_host_ip, isEmpty_false_of_ne_empty hne, List.lookup]

/-- Witness for C2 at a concrete input: one excluded address followed by
one qualifying non-empty address selects the second. -/
theorem c2_first_qualifying_ip_witness :
    selected_host_ip (get_inventory []
        { list := some [running_target_vm (["127.0.0.1"] ++
            "192.168.64.2" :: [])] }) = some "192.168.64.2" :=
  c2_first_qualifying_ip.1 [] ["127.0.0.1"] [] "192.168.64.2"
    (by decide) (by decide) (by decide)

/-- Claim C3: when no record carries the target name, or the record found
first under that name is not running, or none of its addresses passes the
filter, the document is the well-formed empty inventory: empty host list
and empty hostvars under the fixed top level keys. -/
theorem c3_empty_inventory_cases :
    ∀ (script_dir : List String) (data : MultipassData),
      ((∀ vm ∈ data.list.getD [], vm.name ≠ some "jterrazz-infra") →
        get_inventory script_dir data = empty_inventory) ∧
      (∀ vm : VM, find_target_vm data = some vm →
        vm.state ≠ some "Running" →
        get_inventory script_dir data = empty_inventory) ∧
      (∀ vm : VM, find_target_vm data = some vm →
        select_ip (vm.ipv4.getD []) = none →
        get_inventory script_dir data = empty_inventory) := by
  intro script_dir data
  refine ⟨?_, ?_, ?_⟩
  · intro h
    have hfind : find_target_vm data = none := by
      unfold find_target_vm
      rw [List.find?_eq_none]
      intro vm hvm
      simpa using h vm hvm
    simp [get_inventory, hfind]
  · intro vm hfind hstate
    simp [get_inventory, hfind, hstate]
  · intro vm hfind hsel
    by_cases hst : vm.state = some "Running"
    · simp [get_inventory, hfind, hst, hsel]
    · simp [get_inventory, hfind, hst]

/-- Witness for C3 at a concrete input: the empty VM list gives the empty
inventory. -/
theorem c3_empty_inventory_cases_witness :
    get_inventory [] { list := some [] } = empty_inventory :=
  (c3_empty_inventory_cases [] { list := some [] }).1 (by simp)

/-- Claim C4 as stated is false at one representable input: for a
running target record with `ipv4 = ["127.0.0.1", ""]` the loop selects
the empty string, so a qualifying record and address are found in the
sense of the claim, yet the truthiness gate `if vm_ip:` of the source
leaves the hostvars mapping empty instead of populating it. -/
theorem c4_counterexample :
    find_target_vm { list := some [running_target_vm ["127.0.0.1", ""]] } =
      some (running_target_vm ["127.0.0.1", ""]) ∧
    (running_target_vm ["127.0.0.1", ""]).state = some "Running" ∧
    select_ip ((running_target_vm ["127.0.0.1", ""]).ipv4.getD []) =
      some "" ∧
    (get_inventory []
      { list := some [running_target_vm ["127.0.0.1", ""]] }).meta_hostvars =
      [] := by
  exact ⟨by decide, rfl, by decide, by decide⟩

/-- Claim C4 amended: whenever a qualifying record and a NON-EMPTY
address are found (the truthiness gate of the source requires the
selected address to be non-empty), the hostvars mapping holds exactly
the four connection variables, with the key path
`<project_root>/local-data/ssh/id_rsa` where the project root is three
parent directories above the script directory; the mapping exists only
in the success branch and is never partially populated. -/
theorem c4_hostvars_exact :
    (∀ (script_dir : List String) (data : MultipassData) (vm : VM)
        (ip : String),
      find_target_vm data = some vm → vm.state = some "Running" →
      select_ip (vm.ipv4.getD []) = some ip → ip ≠ "" →
      get_inventory script_dir data =
        { all_children := ["development"]
          development_hosts := ["jterrazz-infra"]
          meta_hostvars := [("jterrazz-infra",
            { ansible_host := ip
              ansible_user := "ubuntu"
              ansible_ssh_private_key_file :=
                path_join (get_project_root script_dir) "local-data/ssh/id_rsa"
              ansible_ssh_common_args :=
                "-o StrictHostKeyChecking=no -o UserKnownHostsFile=/dev/null" })] }) ∧
    (∀ script_dir : List String,
      get_project_root script_dir = script_dir.dropLast.dropLast.dropLast) ∧
    (∀ (script_dir : List String) (data : MultipassData),
      (get_inventory script_dir data).meta_hostvars = [] ∨
      ∃ ip : String,
        (get_inventory script_dir data).meta_hostvars = [("jterrazz-infra",
          { ansible_host := ip
            ansible_user := "ubuntu"
            ansible_ssh_private_key_file :=
              path_join (get_project_root script_dir) "local-data/ssh/id_rsa"
            ansible_ssh_common_args :=
              "-o StrictHostKeyChecking=no -o UserKnownHostsFile=/dev/null" })]) := by
  refine ⟨?_, fun _ => rfl, ?_⟩
  · intro script_dir data vm ip hfind hstate hsel hne
    simp [get_inventory, hfind, hstate, hsel, ssh_common_args,
      isEmpty_false_of_ne_empty hne]
  · intro script_dir data
    simp only [get_inventory, ssh_common_args]
    split
    · exact .inl rfl
    · split
      · split
        · exact .inl rfl
        · split
          · exact .inl rfl
          · exact .inr ⟨_, rfl⟩
      · exact .inl rfl

/-- Witness for C4 at a concrete input: a single running target record
with one qualifying address. -/
theorem c4_hostvars_exact_witness :
    get_inventory ["", "repo", "ansible", "inventories", "multipass"]
        { list := some [running_target_vm ["192.168.64.10"]] } =
      { all_children := ["development"]
        development_hosts := ["jterrazz-infra"]
        meta_hostvars := [("jterrazz-infra",
          { ansible_host := "192.168.64.10"
            ansible_user := "ubuntu"
            ansible_ssh_private_key_file :=
              path_join (get_project_root
                ["", "repo", "ansible", "inventories", "multipass"])
                "local-data/ssh/id_rsa"
            ansible_ssh_common_args :=
              "-o StrictHostKeyChecking=no -o UserKnownHostsFile=/dev/null" })] } :=
  c4_hostvars_exact.1 ["", "repo", "ansible", "inventories", "multipass"]
    { list := some [running_target_vm ["192.168.64.10"]] }
    (running_target_vm ["192.168.64.10"]) "192.168.64.10"
    (by decide) rfl (by decide) (by decide)

/-- Claim C7 as stated is false: the source tests the truthiness of the
`--host` value, so the empty host name, which is not a key of the
hostvars mapping, prints the full document rather than the empty
mapping. -/
theorem c7_counterexample :
    ("" ∉ (get_inventory []
        (get_multipass_vm_info .jsonDecodeError)).meta_hostvars.map Prod.fst) ∧
    main { list := false, host := some "" } .jsonDecodeError [] ≠
      .host none := by
  exact ⟨by decide, by decide⟩

/-- Claim C7 amended: for every NON-EMPTY host name that is not a key of
the hostvars mapping, `--host` with that name prints exactly the empty
mapping. -/
theorem c7_unknown_host_empty_mapping :
    ∀ (fetch : FetchOutcome) (script_dir : List String) (name : String),
      name ≠ "" →
      (get_inventory script_dir
        (get_multipass_vm_info fetch)).meta_hostvars.lookup name = none →
      main { list := false, host := some name } fetch script_dir =
        .host none := by
  intro fetch script_dir name hne hlookup
  have htruthy : name.isEmpty = false := by
    rcases h : name.isEmpty with _ | _
    · rfl
    · exact absurd ((String.isEmpty_iff name).mp h) hne
  simp [main, host_truthy, htruthy, hlookup]

/-- Witness for the amended C7 at a concrete input: an unknown non-empty
name prints the empty mapping when the fetch failed. -/
theorem c7_unknown_host_empty_mapping_witness :
    main { list := false, host := some "unknown-name" } .jsonDecodeError [] =
      .host none :=
  c7_unknown_host_empty_mapping .jsonDecodeError [] "unknown-name"
    (by decide) (by decide)

/-- Claim C8: structural invariants of every document: `all.children` is
exactly the singleton `development`, `development.hosts` is empty or
exactly the singleton target name, the key sequence of the hostvars
mapping is empty or exactly the singleton target name, and the host list
is empty exactly when the hostvars mapping is. -/
theorem c8_document_invariants :
    ∀ (script_dir : List String) (data : MultipassData),
      (get_inventory script_dir data).all_children = ["development"] ∧
      ((get_inventory script_dir data).development_hosts = [] ∨
        (get_inventory script_dir data).development_hosts =
          ["jterrazz-infra"]) ∧
      ((get_inventory script_dir data).meta_hostvars.map Prod.fst = [] ∨
        (get_inventory script_dir data).meta_hostvars.map Prod.fst =
          ["jterrazz-infra"]) ∧
      (get_inventory script_dir data).development_hosts.isEmpty =
        (get_inventory script_dir data).meta_hostvars.isEmpty := by
  intro script_dir data
  simp only [get_inventory]
  split
  · exact ⟨rfl, .inl rfl, .inl rfl, rfl⟩
  · split
    · split
      · exact ⟨rfl, .inl rfl, .inl rfl, rfl⟩
      · split
        · exact ⟨rfl, .inl rfl, .inl rfl, rfl⟩
        · exact ⟨rfl, .inr rfl, .inr rfl, rfl⟩
    · exact ⟨rfl, .inl rfl, .inl rfl, rfl⟩

end MultipassInventory
